import Mathlib

/-!
Shallow embedding of the API-Scheduler backend (src/backend) and proofs
about its core scheduling logic: the next-run calculators, the outcome
classifier, the job executor with its observer fan-out, the schedule
pause/resume endpoints, and one iteration of the background dispatch loop.

Python semantics that matter here and are modelled explicitly:
* `datetime` values are a wall-clock reading plus an optional time zone
  (`tzinfo`); `replace(tzinfo=z)` keeps the wall clock and changes the zone,
  `astimezone(z)` keeps the instant and changes the wall clock; aware
  datetimes compare by instant.
* `dict.get(k, d)` is `Option.getD`; `config['k']` on a missing key raises
  `KeyError`, modelled with `Except`.
* `if x:` on an optional integer is Python truthiness: `None` and `0` are
  falsy.
* In `class JobExecutor` the methods `__init__`, `add_observer` and
  `execute` are each defined twice; the later definitions shadow the
  earlier ones, so the executable method is the second `execute`
  (core_logic.py lines 161-196).  Both versions are embedded: `execute`
  is the live one, `executeShadowed` the dead first definition
  (lines 104-154).
-/

namespace APIScheduler

/-- Decidable equality for `Except`, used to evaluate the fallible
embedded functions at concrete inputs. -/
instance {ε α : Type} [DecidableEq ε] [DecidableEq α] :
    DecidableEq (Except ε α) := fun a b =>
  match a, b with
  | .ok x, .ok y =>
    if h : x = y then .isTrue (by rw [h])
    else .isFalse (fun hc => h (Except.ok.inj hc))
  | .error x, .error y =>
    if h : x = y then .isTrue (by rw [h])
    else .isFalse (fun hc => h (Except.error.inj hc))
  | .ok _, .error _ => .isFalse (fun hc => Except.noConfusion hc)
  | .error _, .ok _ => .isFalse (fun hc => Except.noConfusion hc)

/-- Time zones appearing in the system: `Asia/Kolkata` (the `IST` constant of
utils.py, UTC+05:30 = 19800 s), UTC, or any other fixed-offset zone. -/
inductive PyTz where
  | kolkata : PyTz
  | utc : PyTz
  | fixed (offsetSeconds : Int) : PyTz
deriving DecidableEq, Repr

/-- UTC offset of a zone, in seconds. -/
def PyTz.offset : PyTz → Int
  | .kolkata => 19800
  | .utc => 0
  | .fixed o => o

/-- A Python `datetime`: wall-clock reading (in seconds, on some arbitrary
but fixed epoch) plus optional `tzinfo`.  `tz = none` is a naive datetime. -/
structure PyDateTime where
  wall : Int
  tz : Option PyTz
deriving DecidableEq, Repr

/-- The absolute instant (seconds UTC) denoted by an aware datetime; for a
naive datetime this is just the wall reading (Python would refuse to compare
it with an aware one, which never happens in the embedded code paths). -/
def PyDateTime.instant (d : PyDateTime) : Int :=
  match d.tz with
  | none => d.wall
  | some z => d.wall - z.offset

/-- `d.replace(tzinfo=z)`: same wall clock, new zone. -/
def PyDateTime.replaceTz (d : PyDateTime) (z : PyTz) : PyDateTime :=
  { wall := d.wall, tz := some z }

/-- `d.astimezone(z)`: same instant, new zone (and hence new wall clock). -/
def PyDateTime.astimezone (d : PyDateTime) (z : PyTz) : PyDateTime :=
  { wall := d.instant + z.offset, tz := some z }

/-- `d + timedelta(seconds=s)`: shifts the wall clock, keeps the zone. -/
def PyDateTime.addSeconds (d : PyDateTime) (s : Int) : PyDateTime :=
  { wall := d.wall + s, tz := d.tz }

/-- Comparison of two aware datetimes (`>`), by instant. -/
def PyDateTime.gtAware (a b : PyDateTime) : Bool :=
  b.instant < a.instant

/-- Python truthiness of an optional integer (`if max_runs:` style guards):
`None` and `0` are falsy, every other integer is truthy. -/
def pyTruthyInt : Option Int → Bool
  | none => false
  | some n => n != 0

/-- models.Target: URL, HTTP method, header mapping, optional body. -/
structure Target where
  url : String
  method : String
  headers : List (String × String)
  body_template : Option String
deriving DecidableEq, Repr

/-- models.ScheduleStatus. -/
inductive ScheduleStatus where
  | ACTIVE : ScheduleStatus
  | PAUSED : ScheduleStatus
  | COMPLETED : ScheduleStatus
deriving DecidableEq, Repr

/-- The `schedule_config` JSON map, restricted to the keys the core reads.
`end_time` holds the value `datetime.fromisoformat(config['end_time'])`
would produce — a naive or aware datetime — and is `none` when the key is
absent (in which case the subscript raises `KeyError`). -/
structure ScheduleConfig where
  interval_seconds : Option Int
  max_runs : Option Int
  timeout_seconds : Option Int
  end_time : Option PyDateTime
deriving DecidableEq, Repr

/-- models.Schedule (the columns the core logic reads and writes). -/
structure Schedule where
  id : Nat
  target : Target
  schedule_type : String
  schedule_config : ScheduleConfig
  status : ScheduleStatus
  next_run_at : PyDateTime
deriving DecidableEq, Repr

/-- `IntervalStrategy.calculate_next_run` (core_logic.py lines 16-22).
The `db` argument mirrors the unused `db: Session = None` parameter as the
run count it could provide.  The Python function always returns a datetime;
the `Option` result mirrors the common strategy signature where `None`
means termination. -/
def IntervalStrategy.calculate_next_run (schedule : Schedule)
    (last_run_time : PyDateTime) (db : Option Nat) : Option PyDateTime :=
  let lrt := if last_run_time.tz = none
    then last_run_time.replaceTz PyTz.kolkata else last_run_time
  let seconds := schedule.schedule_config.interval_seconds.getD 60
  let _ := db
  some (lrt.addSeconds seconds)

/-- The normalization `WindowStrategy.calculate_next_run` applies to the
parsed `end_time` (core_logic.py lines 28-32): a naive value gets
`tzinfo=IST` attached, an aware one is converted to IST. -/
def windowNormalizeEnd (end_time_raw : PyDateTime) : PyDateTime :=
  if end_time_raw.tz = none
  then end_time_raw.replaceTz PyTz.kolkata
  else end_time_raw.astimezone PyTz.kolkata

/-- `WindowStrategy.calculate_next_run` (core_logic.py lines 24-51).
`db = some n` models a session whose `Run` count for this schedule is `n`;
`db = none` models the default `db=None`.  The `Except` layer carries the
`KeyError` raised by `config['end_time']` when the key is missing. -/
def WindowStrategy.calculate_next_run (schedule : Schedule)
    (last_run_time : PyDateTime) (db : Option Nat) :
    Except String (Option PyDateTime) :=
  match schedule.schedule_config.end_time with
  | none => .error "KeyError: end_time"
  | some end_time_raw =>
    let end_time := windowNormalizeEnd end_time_raw
    let interval := schedule.schedule_config.interval_seconds.getD 60
    let max_runs := schedule.schedule_config.max_runs
    if pyTruthyInt max_runs && db.isSome then
      let run_count : Nat := db.getD 0
      if (run_count : Int) ≥ max_runs.getD 0 then
        .ok none
      else
        windowTail end_time interval last_run_time
    else
      windowTail end_time interval last_run_time
where
  /-- The part of the function after the throttle check: build the
  candidate and compare it with the window end. -/
  windowTail (end_time : PyDateTime) (interval : Int)
      (last_run_time : PyDateTime) : Except String (Option PyDateTime) :=
    let lrt := if last_run_time.tz = none
      then last_run_time.replaceTz PyTz.kolkata else last_run_time
    let next_run := lrt.addSeconds interval
    if next_run.gtAware end_time then .ok none else .ok (some next_run)

/-- `ScheduleContext.get_next_run` (core_logic.py lines 53-65): resolver
over `schedule_type`; an unknown type yields `None` without error.  The
Python method computes `current_time = datetime.now(IST)` itself; that
reading is the `current_time` argument here. -/
def ScheduleContext.get_next_run (schedule : Schedule)
    (current_time : PyDateTime) (db : Option Nat) :
    Except String (Option PyDateTime) :=
  match schedule.schedule_type with
  | "INTERVAL" => .ok (IntervalStrategy.calculate_next_run schedule current_time db)
  | "WINDOW" => WindowStrategy.calculate_next_run schedule current_time db
  | _ => .ok none

/-- Membership of `sub` as a prefix of `l`, over character lists. -/
def charsPrefixOf : List Char → List Char → Bool
  | [], _ => true
  | _ :: _, [] => false
  | a :: as, b :: bs => a == b && charsPrefixOf as bs

/-- Membership of `sub` as a contiguous run of `l` (Python `sub in s`). -/
def charsInfixOf (sub : List Char) : List Char → Bool
  | [] => charsPrefixOf sub []
  | b :: bs => charsPrefixOf sub (b :: bs) || charsInfixOf sub bs

/-- Python `s.lower()`, as a character list. -/
def strLower (s : String) : List Char := s.toList.map Char.toLower

/-- Python `sub in hay` on a lowered haystack. -/
def strHasSub (hay : List Char) (sub : String) : Bool :=
  charsInfixOf sub.toList hay

/-- Python string slicing `s[:n]`: the first `n` characters. -/
def strTake (s : String) (n : Nat) : String := String.mk (s.toList.take n)

/-- The dynamic class of a caught transport exception, as tested by the
`isinstance` checks in `classify_error`: `requests.exceptions.Timeout`,
`requests.exceptions.ConnectionError`, or anything else. -/
inductive PyExcKind where
  | timeoutExc : PyExcKind
  | connectionErrorExc : PyExcKind
  | otherExc : PyExcKind
deriving DecidableEq, Repr

/-- A caught Python exception: its class and its `str(e)` message. -/
structure PyException where
  kind : PyExcKind
  msg : String
deriving DecidableEq, Repr

/-- `JobExecutor.classify_error` (core_logic.py lines 86-102).  `exception`
and `status_code` mirror the keyword arguments with default `None`; note
the Python truthiness guards `if exception:` (an exception object is always
truthy) and `if status_code:` (0 is falsy). -/
def JobExecutor.classify_error (exception : Option PyException)
    (status_code : Option Nat) : String :=
  match exception with
  | some e =>
    let err_str := strLower e.msg
    match e.kind with
    | .timeoutExc => "TIMEOUT"
    | .connectionErrorExc =>
      if strHasSub err_str "name resolution" || strHasSub err_str "getaddrinfo"
      then "DNS_ERROR"
      else "CONNECTION_REFUSED"
    | .otherExc => "NETWORK_ERROR"
  | none =>
    match status_code with
    | some sc =>
      if sc != 0 then
        if 500 ≤ sc ∧ sc < 600 then "HTTP_5XX"
        else if 400 ≤ sc ∧ sc < 500 then "HTTP_4XX"
        else "UNKNOWN"
      else "UNKNOWN"
    | none => "UNKNOWN"

/-- models.Run (the columns the executor writes; columns the live executor
leaves unset default to SQLAlchemy `NULL`, i.e. `none`, except
`response_size` which the shadowed executor initializes to 0). -/
structure Run where
  schedule_id : Nat
  status : String
  status_code : Nat
  latency_ms : Int
  response_size : Option Nat
  error_type : Option String
  response_body : Option String
  request_headers : Option (List (String × String))
deriving DecidableEq, Repr

/-- Outcome of the one `requests.request(...)` call: either a response
(status code, `response.text`, `len(response.content)`) or a raised
exception. -/
inductive HttpOutcome where
  | response (status_code : Nat) (text : String) (contentLen : Nat) : HttpOutcome
  | raised (e : PyException) : HttpOutcome
deriving DecidableEq, Repr

/-- The arguments the executor passes to `requests.request`. -/
structure HttpRequest where
  method : String
  url : String
  headers : List (String × String)
  data : Option String
  timeout : Int
deriving DecidableEq, Repr

/-- The request issued by the LIVE `JobExecutor.execute` (core_logic.py
lines 166-172): the target's method/URL/headers/body with a hardcoded
`timeout=5`. -/
def JobExecutor.executeRequest (schedule : Schedule) : HttpRequest :=
  { method := schedule.target.method
    url := schedule.target.url
    headers := schedule.target.headers
    data := schedule.target.body_template
    timeout := 5 }

/-- The request the SHADOWED first `JobExecutor.execute` (core_logic.py
lines 117-123) would issue: same target fields, with
`timeout=schedule_config.get('timeout_seconds', 10)`. -/
def JobExecutor.executeShadowedRequest (schedule : Schedule) : HttpRequest :=
  { method := schedule.target.method
    url := schedule.target.url
    headers := schedule.target.headers
    data := schedule.target.body_template
    timeout := schedule.schedule_config.timeout_seconds.getD 10 }

/-- The Run record built by the LIVE `JobExecutor.execute` (core_logic.py
lines 161-196, the second definition, which shadows the first): on a
response, `SUCCESS` iff `status_code < 400`, body preview `text[:200]`, no
`response_size`, no `error_type`, no `request_headers`; on any exception,
`FAILURE` with `status_code=0` and `str(e)` as the body.  `latency` stands
for the measured `int((time.time() - start_time) * 1000)`. -/
def JobExecutor.execute (schedule : Schedule) (outcome : HttpOutcome)
    (latency : Int) : Run :=
  match outcome with
  | .response sc text _contentLen =>
    { schedule_id := schedule.id
      status := if sc < 400 then "SUCCESS" else "FAILURE"
      status_code := sc
      latency_ms := latency
      response_size := none
      error_type := none
      response_body := some (strTake text 200)
      request_headers := none }
  | .raised e =>
    { schedule_id := schedule.id
      status := "FAILURE"
      status_code := 0
      latency_ms := latency
      response_size := none
      error_type := none
      response_body := some e.msg
      request_headers := none }

/-- The Run record the SHADOWED first `JobExecutor.execute` (core_logic.py
lines 104-154) would build: on a response, `SUCCESS` iff the code is 2xx,
otherwise `FAILURE` with `classify_error(status_code=...)`; body preview
`text[:1000]`, `response_size = len(response.content)`; on exception,
`FAILURE`, code 0, `classify_error(exception=...)`, `response_size` keeps
its initial 0; `request_headers` is always the target's headers. -/
def JobExecutor.executeShadowed (schedule : Schedule) (outcome : HttpOutcome)
    (latency : Int) : Run :=
  match outcome with
  | .response sc text contentLen =>
    { schedule_id := schedule.id
      status := if 200 ≤ sc ∧ sc < 300 then "SUCCESS" else "FAILURE"
      status_code := sc
      latency_ms := latency
      response_size := some contentLen
      error_type := if 200 ≤ sc ∧ sc < 300 then none
        else some (JobExecutor.classify_error none (some sc))
      response_body := some (strTake text 1000)
      request_headers := some schedule.target.headers }
  | .raised e =>
    { schedule_id := schedule.id
      status := "FAILURE"
      status_code := 0
      latency_ms := latency
      response_size := some 0
      error_type := some (JobExecutor.classify_error (some e) none)
      response_body := some e.msg
      request_headers := some schedule.target.headers }

/-- What a registered observer's `on_complete(run)` does when invoked:
return normally or raise an exception with a message. -/
inductive ListenerBeh where
  | returns : ListenerBeh
  | raises (msg : String) : ListenerBeh
deriving DecidableEq, Repr

/-- A registered result listener (element of `JobExecutor.observers`),
identified by a name for tracing which listeners get invoked. -/
structure Listener where
  name : String
  beh : ListenerBeh
deriving DecidableEq, Repr

/-- The fan-out loop `for obs in self.observers: obs.on_complete(run_record)`
(core_logic.py lines 193-194): no try/except, so the first raising listener
propagates its exception. -/
def notifyObservers : List Listener → Except String Unit
  | [] => .ok ()
  | l :: rest =>
    match l.beh with
    | .returns => notifyObservers rest
    | .raises m => .error m

/-- The names of the listeners actually invoked by the fan-out loop, in
order: every listener up to and including the first one that raises. -/
def invokedObservers : List Listener → List String
  | [] => []
  | l :: rest =>
    match l.beh with
    | .returns => l.name :: invokedObservers rest
    | .raises _ => [l.name]

/-- The LIVE `JobExecutor.execute` including its observer fan-out: builds
the Run (the try/except around the request never lets a transport exception
escape), then invokes the listeners; a listener exception propagates out of
`execute`, which then returns nothing. -/
def JobExecutor.executeWithObservers (schedule : Schedule)
    (outcome : HttpOutcome) (latency : Int) (observers : List Listener) :
    Except String Run :=
  let run_record := JobExecutor.execute schedule outcome latency
  match notifyObservers observers with
  | .ok _ => .ok run_record
  | .error m => .error m

/-- The persistent store as visible to an external reader: committed
schedule rows and committed run rows. -/
structure Store where
  schedules : List Schedule
  runs : List Run
deriving DecidableEq, Repr

/-- `db.query(Run).filter(Run.schedule_id == sid).count()`. -/
def countRuns (st : Store) (sid : Nat) : Nat :=
  (st.runs.filter (fun r => r.schedule_id == sid)).length

/-- `DatabaseLoggerObserver.on_complete` (core_logic.py lines 75-77):
`db.add(run); db.commit()` — persists the run in its own commit. -/
def DatabaseLoggerObserver.on_complete (st : Store) (run : Run) : Store :=
  { st with runs := st.runs ++ [run] }

/-- One due schedule's processing inputs in a dispatch-loop iteration: the
schedule row and the injected transport outcome and measured latency of its
outbound call. -/
structure DispatchItem where
  schedule : Schedule
  outcome : HttpOutcome
  latency : Int
deriving DecidableEq, Repr

/-- Result of processing one due schedule: the final store, the list of
store states an external reader could observe (one per `db.commit()`, in
order), and the message of the exception that escaped, if any. -/
structure ProcResult where
  store : Store
  committed : List Store
  error : Option String
deriving DecidableEq, Repr

/-- Processing of one due schedule in `run_scheduler` (main.py lines
50-65): `executor.execute(schedule, db)` with the `DatabaseLoggerObserver`
registered — which commits the Run on its own (commit #1) — then
`ScheduleContext.get_next_run(schedule, db)` (whose WINDOW branch counts
the already-committed runs, including the one just written, and raises
`KeyError` if the config has no `end_time`), then the `next_run_at` /
`status` update followed by `db.commit()` (commit #2).  `now` is the
`datetime.now(IST)` reading `get_next_run` takes internally. -/
def processSchedule (st : Store) (item : DispatchItem) (now : PyDateTime) :
    ProcResult :=
  let run := JobExecutor.execute item.schedule item.outcome item.latency
  let st1 := DatabaseLoggerObserver.on_complete st run
  match ScheduleContext.get_next_run item.schedule now
      (some (countRuns st1 item.schedule.id)) with
  | .error e => { store := st1, committed := [st1], error := some e }
  | .ok next_time =>
    let s' := match next_time with
      | some t => { item.schedule with next_run_at := t }
      | none => { item.schedule with status := ScheduleStatus.COMPLETED }
    let st2 := { st1 with
      schedules := st1.schedules.map
        (fun s => if s.id == item.schedule.id then s' else s) }
    { store := st2, committed := [st1, st2], error := none }

/-- The `for schedule in due_schedules:` body, sequential: the first
exception escapes the loop, so the remaining items are not processed.
Returns the store, the committed-state trace, and the escaping error. -/
def runBatch (st : Store) (now : PyDateTime) :
    List DispatchItem → Store × List Store × Option String
  | [] => (st, [], none)
  | item :: rest =>
    let r := processSchedule st item now
    match r.error with
    | some e => (r.store, r.committed, some e)
    | none =>
      let (st2, tr2, err2) := runBatch r.store now rest
      (st2, r.committed ++ tr2, err2)

/-- One iteration of `run_scheduler`'s `while True:` body (main.py lines
38-72): the whole batch runs inside one `try`; any escaping exception is
caught and logged at the iteration boundary, after which the iteration
ends (and the loop sleeps).  The store reached is whatever the batch left
behind. -/
def schedulerIteration (st : Store) (items : List DispatchItem)
    (now : PyDateTime) : Store :=
  (runBatch st now items).1

/-- The dispatch loop over a sequence of iterations, each with its due
batch and clock reading; returns the final store and the number of
`time.sleep(5)` calls performed (one per iteration, caught or not). -/
def schedulerLoop (st : Store) :
    List (List DispatchItem × PyDateTime) → Store × Nat
  | [] => (st, 0)
  | (items, now) :: rest =>
    let st' := schedulerIteration st items now
    let (stf, sleeps) := schedulerLoop st' rest
    (stf, sleeps + 1)

/-- `pause_schedule` (main.py lines 143-158): 404 when the schedule is
missing, 400 when it is COMPLETED, otherwise sets status PAUSED.  The
`Except` error is the HTTP status code of the raised `HTTPException`. -/
def pause_schedule (schedule : Option Schedule) : Except Nat Schedule :=
  match schedule with
  | none => .error 404
  | some s =>
    if s.status = ScheduleStatus.COMPLETED then .error 400
    else .ok { s with status := ScheduleStatus.PAUSED }

/-- `resume_schedule` (main.py lines 160-169): 404 when the schedule is
missing, otherwise unconditionally sets status ACTIVE — there is no check
against COMPLETED. -/
def resume_schedule (schedule : Option Schedule) : Except Nat Schedule :=
  match schedule with
  | none => .error 404
  | some s => .ok { s with status := ScheduleStatus.ACTIVE }

/-! ## Concrete fixtures used by witnesses and counterexamples -/

/-- A concrete target row. -/
def tgt0 : Target :=
  { url := "http://example.com", method := "GET",
    headers := [("X-Key", "v")], body_template := some "payload" }

/-- A WINDOW schedule whose config sets `max_runs` to 0 (a validated config:
the creation-time validator never inspects `max_runs`). -/
def sWin0 : Schedule :=
  { id := 1, target := tgt0, schedule_type := "WINDOW",
    schedule_config :=
      { interval_seconds := some 60, max_runs := some 0,
        timeout_seconds := none,
        end_time := some ⟨10000, some PyTz.kolkata⟩ },
    status := ScheduleStatus.ACTIVE, next_run_at := ⟨0, some PyTz.kolkata⟩ }

/-- A WINDOW schedule with `max_runs = 3`. -/
def sWin1 : Schedule :=
  { sWin0 with schedule_config :=
      { interval_seconds := some 60, max_runs := some 3,
        timeout_seconds := none,
        end_time := some ⟨10000, some PyTz.kolkata⟩ } }

/-- A WINDOW schedule whose config has no `end_time` key.  It passes the
creation-time validator (which only runs when `start_time` or `end_time`
is present), and makes `calculate_next_run` raise `KeyError` at dispatch
time. -/
def sWinNoEnd : Schedule :=
  { sWin0 with schedule_config :=
      { interval_seconds := some 60, max_runs := none,
        timeout_seconds := none, end_time := none } }

/-- A plain INTERVAL schedule. -/
def sInt0 : Schedule :=
  { id := 2, target := tgt0, schedule_type := "INTERVAL",
    schedule_config :=
      { interval_seconds := some 60, max_runs := none,
        timeout_seconds := none, end_time := none },
    status := ScheduleStatus.ACTIVE, next_run_at := ⟨0, some PyTz.kolkata⟩ }

/-- An INTERVAL schedule whose config sets `timeout_seconds = 30`. -/
def sTimeout30 : Schedule :=
  { sInt0 with
    id := 3
    schedule_config :=
      { interval_seconds := some 60, max_runs := none,
        timeout_seconds := some 30, end_time := none } }

/-- A COMPLETED schedule. -/
def sDone : Schedule := { sInt0 with status := ScheduleStatus.COMPLETED }

/-- A concrete clock reading (aware, IST). -/
def now0 : PyDateTime := ⟨0, some PyTz.kolkata⟩

/-- A store holding just the interval schedule. -/
def st0 : Store := { schedules := [sInt0], runs := [] }

/-- Dispatch input for the interval schedule: a 200 response. -/
def item0 : DispatchItem :=
  { schedule := sInt0, outcome := .response 200 "ok" 2, latency := 7 }

/-- A store with the broken WINDOW schedule first and the healthy INTERVAL
schedule second. -/
def stB : Store := { schedules := [sWinNoEnd, sInt0], runs := [] }

/-- Dispatch input for the WINDOW schedule with no `end_time`. -/
def itemW : DispatchItem :=
  { schedule := sWinNoEnd, outcome := .response 200 "ok" 2, latency := 3 }

/-- A string of `n` copies of `a`, to exercise the preview truncation. -/
def repChar (n : Nat) : String := String.mk (List.replicate n 'a')

/-! ## Theorems -/

/-- Claim C4 — For every INTERVAL schedule and every reference time,
`calculate_next_run` returns `reference_time + interval_seconds`, with
`interval_seconds` read from `schedule_config` and defaulting to 60; the
result is independent of the run history (the `db` argument), and the
INTERVAL calculator never signals termination (never returns `none`). -/
theorem C4_interval_next_run (s : Schedule) (t : PyDateTime) (db : Option Nat) :
    ∃ r : PyDateTime,
      IntervalStrategy.calculate_next_run s t db = some r ∧
      r.wall = t.wall + s.schedule_config.interval_seconds.getD 60 ∧
      ∀ db2 : Option Nat,
        IntervalStrategy.calculate_next_run s t db2 =
          IntervalStrategy.calculate_next_run s t db := by
  refine ⟨_, rfl, ?_, fun db2 => rfl⟩
  by_cases h : t.tz = none <;>
    simp [IntervalStrategy.calculate_next_run, h, PyDateTime.replaceTz,
      PyDateTime.addSeconds]

/-- Claim C5 — The outcome classifier is a pure total function into the
closed label set; the rules apply in the stated order: explicit timeout →
TIMEOUT; connection failure mentioning name resolution (or `getaddrinfo`)
→ DNS_ERROR; other connection failure → CONNECTION_REFUSED; any other
exception → NETWORK_ERROR; status in [500,600) → HTTP_5XX; status in
[400,500) → HTTP_4XX; otherwise UNKNOWN. -/
theorem C5_classifier_total (e : Option PyException) (sc : Option Nat) :
    JobExecutor.classify_error e sc ∈
      (["TIMEOUT", "DNS_ERROR", "CONNECTION_REFUSED", "NETWORK_ERROR",
        "HTTP_5XX", "HTTP_4XX", "UNKNOWN"] : List String) ∧
    (∀ m, JobExecutor.classify_error (some ⟨PyExcKind.timeoutExc, m⟩) sc
      = "TIMEOUT") ∧
    (∀ m, JobExecutor.classify_error (some ⟨PyExcKind.connectionErrorExc, m⟩) sc
      = if strHasSub (strLower m) "name resolution"
          || strHasSub (strLower m) "getaddrinfo"
        then "DNS_ERROR" else "CONNECTION_REFUSED") ∧
    (∀ m, JobExecutor.classify_error (some ⟨PyExcKind.otherExc, m⟩) sc
      = "NETWORK_ERROR") ∧
    (∀ n : Nat, JobExecutor.classify_error none (some n)
      = if 500 ≤ n ∧ n < 600 then "HTTP_5XX"
        else if 400 ≤ n ∧ n < 500 then "HTTP_4XX"
        else "UNKNOWN") ∧
    JobExecutor.classify_error none none = "UNKNOWN" := by
  refine ⟨?_, fun m => rfl, fun m => ?_, fun m => rfl, fun n => ?_, rfl⟩
  · match e with
    | some ex =>
      match hk : ex.kind with
      | .timeoutExc => simp [JobExecutor.classify_error, hk]
      | .connectionErrorExc =>
        by_cases hd : (strHasSub (strLower ex.msg) "name resolution"
            || strHasSub (strLower ex.msg) "getaddrinfo") = true <;>
          simp_all [JobExecutor.classify_error, hk]
      | .otherExc => simp [JobExecutor.classify_error, hk]
    | none =>
      match sc with
      | some n =>
        simp only [JobExecutor.classify_error]
        split
        · split
          · simp
          · split <;> simp
        · simp
      | none => simp [JobExecutor.classify_error]
  · simp [JobExecutor.classify_error]
  · simp only [JobExecutor.classify_error]
    by_cases h0 : n = 0
    · subst h0
      simp
    · have : (n != 0) = true := by simpa using h0
      simp [this]

/-- Claim C2 (amended) — For every WINDOW schedule whose config has an
`end_time` and with a run-count lookup available (`db = some rc`),
`calculate_next_run` follows: (1) if `max_runs` is set to a truthy
(nonzero) value and the committed run count is at least `max_runs`, return
no value, even when the candidate would not exceed `end_time`; (2)
otherwise let `candidate = reference_time + interval_seconds` (naive
reference times first get the IST zone attached); if `candidate >
end_time` (normalized to IST), return no value even when `max_runs` is not
reached; (3) otherwise return `candidate`. -/
theorem C2_window_algorithm (s : Schedule) (t : PyDateTime) (rc : Nat)
    (et : PyDateTime) (he : s.schedule_config.end_time = some et) :
    ((pyTruthyInt s.schedule_config.max_runs = true ∧
      (rc : Int) ≥ s.schedule_config.max_runs.getD 0) →
      WindowStrategy.calculate_next_run s t (some rc) = .ok none) ∧
    ((pyTruthyInt s.schedule_config.max_runs = false ∨
      (rc : Int) < s.schedule_config.max_runs.getD 0) →
      PyDateTime.gtAware
        ((if t.tz = none then t.replaceTz PyTz.kolkata else t).addSeconds
          (s.schedule_config.interval_seconds.getD 60))
        (windowNormalizeEnd et) = true →
      WindowStrategy.calculate_next_run s t (some rc) = .ok none) ∧
    ((pyTruthyInt s.schedule_config.max_runs = false ∨
      (rc : Int) < s.schedule_config.max_runs.getD 0) →
      PyDateTime.gtAware
        ((if t.tz = none then t.replaceTz PyTz.kolkata else t).addSeconds
          (s.schedule_config.interval_seconds.getD 60))
        (windowNormalizeEnd et) = false →
      WindowStrategy.calculate_next_run s t (some rc) =
        .ok (some
          ((if t.tz = none then t.replaceTz PyTz.kolkata else t).addSeconds
            (s.schedule_config.interval_seconds.getD 60)))) := by
  refine ⟨?_, ?_, ?_⟩
  · rintro ⟨h1, h2⟩
    simp [WindowStrategy.calculate_next_run, he, h1, h2]
  · rintro (h | h) hgt
    · simp [WindowStrategy.calculate_next_run,
        WindowStrategy.calculate_next_run.windowTail, he, h, hgt]
    · simp [WindowStrategy.calculate_next_run,
        WindowStrategy.calculate_next_run.windowTail, he, hgt, not_le.mpr h]
  · rintro (h | h) hgt
    · simp [WindowStrategy.calculate_next_run,
        WindowStrategy.calculate_next_run.windowTail, he, h, hgt]
    · simp [WindowStrategy.calculate_next_run,
        WindowStrategy.calculate_next_run.windowTail, he, hgt, not_le.mpr h]

/-- Witness for C2: a WINDOW schedule with `max_runs = 3` and 3 committed
runs terminates, even though the candidate `160` is well before the window
end `10000`; the same schedule with 2 committed runs fires at `160`. -/
theorem C2_window_algorithm_witness :
    WindowStrategy.calculate_next_run sWin1 ⟨100, some PyTz.kolkata⟩ (some 3)
      = .ok none ∧
    WindowStrategy.calculate_next_run sWin1 ⟨100, some PyTz.kolkata⟩ (some 2)
      = .ok (some ⟨160, some PyTz.kolkata⟩) := by
  constructor
  · exact (C2_window_algorithm sWin1 ⟨100, some PyTz.kolkata⟩ 3
      ⟨10000, some PyTz.kolkata⟩ rfl).1 ⟨by decide, by decide⟩
  · exact (C2_window_algorithm sWin1 ⟨100, some PyTz.kolkata⟩ 2
      ⟨10000, some PyTz.kolkata⟩ rfl).2.2 (Or.inr (by decide)) (by decide)

/-- Counterexample to C2 as stated: `sWin0` has `max_runs` set (to 0) and
its committed run count 0 satisfies `0 ≥ max_runs`, so by the claim the
calculator should terminate; the code treats the falsy value 0 as unset
(`if max_runs and db:`) and returns the candidate `160` instead. -/
theorem C2_counterexample :
    sWin0.schedule_config.max_runs = some 0 ∧
    WindowStrategy.calculate_next_run sWin0 ⟨100, some PyTz.kolkata⟩ (some 0)
      = .ok (some ⟨160, some PyTz.kolkata⟩) ∧
    WindowStrategy.calculate_next_run sWin0 ⟨100, some PyTz.kolkata⟩ (some 0)
      ≠ .ok none := by
  refine ⟨rfl, by decide, by decide⟩

/-- The fan-out loop returns normally when every listener does. -/
lemma notifyObservers_all_returns (obs : List Listener)
    (h : ∀ l ∈ obs, l.beh = ListenerBeh.returns) :
    notifyObservers obs = .ok () := by
  induction obs with
  | nil => rfl
  | cons l rest ih =>
    have hl := h l (List.mem_cons_self l rest)
    simp only [notifyObservers, hl]
    exact ih fun x hx => h x (List.mem_cons_of_mem _ hx)

/-- When no listener raises, every registered listener is invoked, in
registration order. -/
lemma invokedObservers_all_returns (obs : List Listener)
    (h : ∀ l ∈ obs, l.beh = ListenerBeh.returns) :
    invokedObservers obs = obs.map Listener.name := by
  induction obs with
  | nil => rfl
  | cons l rest ih =>
    have hl := h l (List.mem_cons_self l rest)
    simp only [invokedObservers, hl, List.map_cons]
    exact congrArg _ (ih fun x hx => h x (List.mem_cons_of_mem _ hx))

/-- Claim C1 (amended) — For every schedule and every outcome of the
outbound call (2xx, 4xx, 5xx, timeout, DNS failure, connection refused,
generic network error), PROVIDED every registered listener returns
normally, `JobExecutor.execute` returns a Run and propagates no exception,
invoking every listener in registration order; on a transport failure the
returned Run has status FAILURE and status_code 0.  (A failure raised by
one listener, however, propagates out of `execute` and prevents the
subsequent listeners from being invoked — see the counterexample.) -/
theorem C1_executor_total (s : Schedule) (o : HttpOutcome) (lat : Int)
    (obs : List Listener)
    (h : ∀ l ∈ obs, l.beh = ListenerBeh.returns) :
    JobExecutor.executeWithObservers s o lat obs
      = .ok (JobExecutor.execute s o lat) ∧
    (∀ e : PyException, o = HttpOutcome.raised e →
      (JobExecutor.execute s o lat).status = "FAILURE" ∧
      (JobExecutor.execute s o lat).status_code = 0) ∧
    invokedObservers obs = obs.map Listener.name := by
  refine ⟨?_, ?_, invokedObservers_all_returns obs h⟩
  · simp [JobExecutor.executeWithObservers, notifyObservers_all_returns obs h]
  · rintro e rfl
    exact ⟨rfl, rfl⟩

/-- Witness for C1: with one well-behaved listener registered and the call
raising a timeout, `execute` returns a FAILURE Run with status_code 0. -/
theorem C1_executor_total_witness :
    JobExecutor.executeWithObservers sInt0
      (.raised ⟨PyExcKind.timeoutExc, "request timed out"⟩) 4
      [⟨"db_logger", ListenerBeh.returns⟩]
      = .ok (JobExecutor.execute sInt0
          (.raised ⟨PyExcKind.timeoutExc, "request timed out"⟩) 4) ∧
    (JobExecutor.execute sInt0
      (.raised ⟨PyExcKind.timeoutExc, "request timed out"⟩) 4).status
      = "FAILURE" ∧
    (JobExecutor.execute sInt0
      (.raised ⟨PyExcKind.timeoutExc, "request timed out"⟩) 4).status_code
      = 0 := by
  have h := C1_executor_total sInt0
    (.raised ⟨PyExcKind.timeoutExc, "request timed out"⟩) 4
    [⟨"db_logger", ListenerBeh.returns⟩] (by decide)
  exact ⟨h.1, (h.2.1 _ rfl).1, (h.2.1 _ rfl).2⟩

/-- Counterexample to C1 as stated: when the first registered listener
raises, `execute` propagates the exception (returning no Run at all) and
the second listener is never invoked. -/
theorem C1_counterexample :
    JobExecutor.executeWithObservers sInt0 (.response 200 "ok" 2) 1
      [⟨"db_logger", ListenerBeh.raises "db commit failed"⟩,
       ⟨"telemetry", ListenerBeh.returns⟩]
      = .error "db commit failed" ∧
    invokedObservers
      [⟨"db_logger", ListenerBeh.raises "db commit failed"⟩,
       ⟨"telemetry", ListenerBeh.returns⟩]
      = ["db_logger"] := by
  exact ⟨rfl, rfl⟩

set_option maxRecDepth 20000 in
/-- Claim C3 — evaluation at the failing input, status code 301 with a
250-character body: the LIVE executor (second `execute`, the one Python
actually runs) records SUCCESS with no classification, no size, and a
200-character preview, whereas the SHADOWED first `execute` — the one the
claim describes — records FAILURE, classification UNKNOWN, the actual byte
length, and a 1000-character preview. -/
theorem C3_executor_response_fields :
    (JobExecutor.execute sInt0 (.response 301 (repChar 250) 1234) 10).status
      = "SUCCESS" ∧
    (JobExecutor.execute sInt0 (.response 301 (repChar 250) 1234) 10).error_type
      = none ∧
    (JobExecutor.execute sInt0 (.response 301 (repChar 250) 1234) 10).response_size
      = none ∧
    (JobExecutor.execute sInt0 (.response 301 (repChar 250) 1234) 10).response_body
      = some (repChar 200) ∧
    (JobExecutor.executeShadowed sInt0 (.response 301 (repChar 250) 1234) 10).status
      = "FAILURE" ∧
    (JobExecutor.executeShadowed sInt0 (.response 301 (repChar 250) 1234) 10).error_type
      = some "UNKNOWN" ∧
    (JobExecutor.executeShadowed sInt0 (.response 301 (repChar 250) 1234) 10).response_size
      = some 1234 ∧
    (JobExecutor.executeShadowed sInt0 (.response 301 (repChar 250) 1234) 10).response_body
      = some (repChar 250) := by
  refine ⟨rfl, rfl, rfl, ?_, rfl, rfl, rfl, ?_⟩ <;> decide

/-- Claim C9 — evaluation at the failing input, a schedule whose config
sets `timeout_seconds = 30`: the LIVE executor issues the request with the
hardcoded `timeout=5`, not the configured 30 (which only the SHADOWED
first `execute` would use, with default 10); the other request fields do
come from the schedule's target. -/
theorem C9_request_timeout :
    sTimeout30.schedule_config.timeout_seconds = some 30 ∧
    (JobExecutor.executeRequest sTimeout30).timeout = 5 ∧
    (JobExecutor.executeShadowedRequest sTimeout30).timeout = 30 ∧
    (JobExecutor.executeRequest sTimeout30).method = sTimeout30.target.method ∧
    (JobExecutor.executeRequest sTimeout30).url = sTimeout30.target.url ∧
    (JobExecutor.executeRequest sTimeout30).headers = sTimeout30.target.headers ∧
    (JobExecutor.executeRequest sTimeout30).data
      = sTimeout30.target.body_template := by
  exact ⟨rfl, rfl, rfl, rfl, rfl, rfl, rfl⟩

/-- Claim C6 (amended) — In one dispatch-loop iteration, an exception
raised while processing a single schedule is caught at the ITERATION
boundary, not per schedule: it ends the iteration, so the remaining due
schedules in that batch are not processed in that iteration (the final
store is exactly the state left by the failing schedule); the loop itself
does not terminate — every iteration, failed or not, is followed by one
poll-period sleep. -/
theorem C6_iteration_catch (st : Store) (now : PyDateTime)
    (item : DispatchItem) (rest : List DispatchItem) (e : String)
    (h : (processSchedule st item now).error = some e) :
    schedulerIteration st (item :: rest) now
      = (processSchedule st item now).store ∧
    (runBatch st now (item :: rest)).2.2 = some e ∧
    ∀ (st2 : Store) (batches : List (List DispatchItem × PyDateTime)),
      (schedulerLoop st2 batches).2 = batches.length := by
  refine ⟨?_, ?_, ?_⟩
  · simp [schedulerIteration, runBatch, h]
  · simp [runBatch, h]
  · intro st2 batches
    induction batches generalizing st2 with
    | nil => rfl
    | cons b rest2 ih => simp [schedulerLoop, ih]

set_option maxRecDepth 10000 in
/-- Witness for C6: the batch whose first schedule is the WINDOW schedule
with no `end_time` stops right after that schedule's `KeyError`, and the
loop sleeps once per iteration over any batch sequence. -/
theorem C6_iteration_catch_witness :
    schedulerIteration stB [itemW, item0] now0
      = (processSchedule stB itemW now0).store ∧
    (runBatch stB now0 [itemW, item0]).2.2 = some "KeyError: end_time" := by
  have h := C6_iteration_catch stB now0 itemW [item0] "KeyError: end_time"
    (by decide)
  exact ⟨h.1, h.2.1⟩

set_option maxRecDepth 10000 in
/-- Counterexample to C6 as stated: in the batch `[itemW, item0]` the first
schedule raises `KeyError` (WINDOW config without `end_time`), and the
second, perfectly healthy INTERVAL schedule is NOT processed in that
iteration — no Run is recorded for it and its row is not advanced — even
though the claim says an exception for one schedule must not abort the
remaining due schedules of the batch. -/
theorem C6_counterexample :
    (processSchedule stB itemW now0).error = some "KeyError: end_time" ∧
    countRuns (schedulerIteration stB [itemW, item0] now0) sInt0.id = 0 ∧
    (schedulerIteration stB [itemW, item0] now0).schedules
      = [sWinNoEnd, sInt0] ∧
    countRuns (schedulerIteration stB [itemW, item0] now0) sWinNoEnd.id
      = 1 := by
  refine ⟨by decide, by decide, by decide, by decide⟩

/-- Claim C7 (amended) — For every due schedule processed by the dispatch
loop, the Run is committed FIRST, on its own, by the
`DatabaseLoggerObserver` during `execute` (the first observable store
state has the new Run while the schedule row is unchanged); the schedule
advance lands in a second, separate commit.  One direction of the claim
does hold: every observable state that includes the schedule advance also
includes the Run (the Run is never missing once the advance is visible). -/
theorem C7_commit_order (st : Store) (item : DispatchItem) (now : PyDateTime) :
    (processSchedule st item now).committed.head?
      = some (DatabaseLoggerObserver.on_complete st
          (JobExecutor.execute item.schedule item.outcome item.latency)) ∧
    (DatabaseLoggerObserver.on_complete st
        (JobExecutor.execute item.schedule item.outcome item.latency)).schedules
      = st.schedules ∧
    (∀ stc ∈ (processSchedule st item now).committed,
      JobExecutor.execute item.schedule item.outcome item.latency
        ∈ stc.runs) := by
  refine ⟨?_, rfl, ?_⟩
  · simp only [processSchedule]
    split <;> rfl
  · intro stc hmem
    simp only [processSchedule] at hmem
    split at hmem <;>
      simp only [List.mem_cons, List.mem_singleton] at hmem
    · rcases hmem with rfl | hc
      · simp [DatabaseLoggerObserver.on_complete]
      · cases hc
    · rcases hmem with rfl | rfl | hc
      · simp [DatabaseLoggerObserver.on_complete]
      · simp [DatabaseLoggerObserver.on_complete]
      · cases hc

set_option maxRecDepth 10000 in
/-- Witness for C7: for the concrete interval dispatch, the first
committed state already contains the Run. -/
theorem C7_commit_order_witness :
    JobExecutor.execute item0.schedule item0.outcome item0.latency
      ∈ (DatabaseLoggerObserver.on_complete st0
          (JobExecutor.execute item0.schedule item0.outcome item0.latency)).runs := by
  exact (C7_commit_order st0 item0 now0).2.2 _ (by decide)

set_option maxRecDepth 10000 in
/-- Counterexample to C7 as stated: processing the due interval schedule
produces an observable committed state (the first of the two commits) in
which the Run is persisted while the schedule row still carries its old
`next_run_at = 0`; only the second commit advances it to 60.  So the Run
and the schedule advance are NOT committed together as one atomic unit. -/
theorem C7_counterexample :
    (processSchedule st0 item0 now0).committed.head?
      = some { schedules := [sInt0],
               runs := [JobExecutor.execute sInt0 (.response 200 "ok" 2) 7] } ∧
    sInt0.next_run_at = ⟨0, some PyTz.kolkata⟩ ∧
    (processSchedule st0 item0 now0).store.schedules
      = [{ sInt0 with next_run_at := ⟨60, some PyTz.kolkata⟩ }] := by
  refine ⟨by decide, rfl, by decide⟩

/-- Claim C8 (amended) — For every schedule whose status is COMPLETED, the
pause operation is rejected with HTTP 400 and leaves the status COMPLETED;
the resume operation, however, is NOT rejected: it unconditionally sets
the status to ACTIVE, so a COMPLETED schedule re-enters ACTIVE via resume
and COMPLETED is not a terminal sink of the status state machine. -/
theorem C8_completed_transitions (s : Schedule)
    (h : s.status = ScheduleStatus.COMPLETED) :
    pause_schedule (some s) = .error 400 ∧
    resume_schedule (some s)
      = .ok { s with status := ScheduleStatus.ACTIVE } := by
  exact ⟨by simp [pause_schedule, h], rfl⟩

/-- Witness for C8: the concrete COMPLETED schedule. -/
theorem C8_completed_transitions_witness :
    pause_schedule (some sDone) = .error 400 ∧
    resume_schedule (some sDone)
      = .ok { sDone with status := ScheduleStatus.ACTIVE } := by
  exact C8_completed_transitions sDone rfl

/-- Counterexample to C8 as stated: resuming the COMPLETED schedule
`sDone` is not rejected — it succeeds and yields an ACTIVE schedule. -/
theorem C8_counterexample :
    sDone.status = ScheduleStatus.COMPLETED ∧
    resume_schedule (some sDone)
      = .ok { sDone with status := ScheduleStatus.ACTIVE } ∧
    ({ sDone with status := ScheduleStatus.ACTIVE }).status
      = ScheduleStatus.ACTIVE := by
  exact ⟨rfl, rfl, rfl⟩

/-- A `some` result of the WINDOW calculator is always the normalized
reference time shifted by the interval. -/
lemma window_calculate_some (s : Schedule) (t : PyDateTime) (db : Option Nat)
    (r : PyDateTime)
    (h : WindowStrategy.calculate_next_run s t db = .ok (some r)) :
    r = (if t.tz = none then t.replaceTz PyTz.kolkata else t).addSeconds
        (s.schedule_config.interval_seconds.getD 60) := by
  have tail : ∀ (endt : PyDateTime) (iv : Int),
      WindowStrategy.calculate_next_run.windowTail endt iv t = .ok (some r) →
      r = (if t.tz = none then t.replaceTz PyTz.kolkata else t).addSeconds iv := by
    intro endt iv htail
    simp only [WindowStrategy.calculate_next_run.windowTail] at htail
    by_cases hg :
        (((if t.tz = none then t.replaceTz PyTz.kolkata else t).addSeconds
          iv).gtAware endt) = true
    · simp [hg] at htail
    · simp [hg] at htail
      exact htail.symm
  simp only [WindowStrategy.calculate_next_run] at h
  split at h
  · simp at h
  · split at h
    · split at h
      · simp at h
      · exact tail _ _ h
    · exact tail _ _ h

/-- Claim C10 (amended) — Any timestamp returned by either calculator is
timezone-aware and carries the (normalized) reference time's zone: a naive
reference time is first interpreted as Asia/Kolkata, and an aware
reference time keeps its own zone — so the result is in Asia/Kolkata
whenever the reference time is naive or already in Asia/Kolkata, but not
for an aware reference time in another zone.  A naive configured
`end_time` is interpreted as Asia/Kolkata local time (wall clock
preserved) and an aware `end_time` is converted to Asia/Kolkata (instant
preserved) before the window comparison. -/
theorem C10_calculator_zones :
    (∀ (s : Schedule) (t : PyDateTime) (db : Option Nat),
      ∃ r : PyDateTime,
        IntervalStrategy.calculate_next_run s t db = some r ∧
        r.tz.isSome = true ∧
        (t.tz = none → r.tz = some PyTz.kolkata) ∧
        (∀ z, t.tz = some z → r.tz = some z)) ∧
    (∀ (s : Schedule) (t : PyDateTime) (db : Option Nat) (r : PyDateTime),
      WindowStrategy.calculate_next_run s t db = .ok (some r) →
        r.tz.isSome = true ∧
        (t.tz = none → r.tz = some PyTz.kolkata) ∧
        (∀ z, t.tz = some z → r.tz = some z)) ∧
    (∀ et : PyDateTime,
      (windowNormalizeEnd et).tz = some PyTz.kolkata ∧
      (et.tz = none → (windowNormalizeEnd et).wall = et.wall) ∧
      (∀ z, et.tz = some z →
        (windowNormalizeEnd et).instant = et.instant)) := by
  refine ⟨?_, ?_, ?_⟩
  · intro s t db
    refine ⟨_, rfl, ?_, ?_, ?_⟩ <;>
      rcases ht : t.tz with _ | z <;>
        simp [IntervalStrategy.calculate_next_run, ht, PyDateTime.replaceTz,
          PyDateTime.addSeconds]
  · intro s t db r h
    have hr := window_calculate_some s t db r h
    subst hr
    rcases ht : t.tz with _ | z <;>
      simp [ht, PyDateTime.replaceTz, PyDateTime.addSeconds]
  · intro et
    rcases het : et.tz with _ | z <;>
      simp [windowNormalizeEnd, het, PyDateTime.replaceTz,
        PyDateTime.astimezone, PyDateTime.instant]

/-- Witness for C10: a naive reference time yields an Asia/Kolkata-aware
next run, and a naive window end is stamped with Asia/Kolkata keeping its
wall clock. -/
theorem C10_calculator_zones_witness :
    (IntervalStrategy.calculate_next_run sInt0 ⟨5, none⟩ none).map
        PyDateTime.tz
      = some (some PyTz.kolkata) ∧
    (windowNormalizeEnd ⟨7, none⟩).tz = some PyTz.kolkata ∧
    (windowNormalizeEnd ⟨7, none⟩).wall = 7 := by
  obtain ⟨r, h1, _, h3, _⟩ := C10_calculator_zones.1 sInt0 ⟨5, none⟩ none
  obtain ⟨g1, g2, _⟩ := C10_calculator_zones.2.2 ⟨7, none⟩
  refine ⟨?_, g1, g2 rfl⟩
  simp [h1, h3 rfl]

/-- Counterexample to C10 as stated: with an aware UTC reference time, the
INTERVAL calculator returns a timestamp whose zone is UTC, not the fixed
zone Asia/Kolkata the claim requires. -/
theorem C10_counterexample :
    IntervalStrategy.calculate_next_run sInt0 ⟨0, some PyTz.utc⟩ none
      = some ⟨60, some PyTz.utc⟩ ∧
    (some PyTz.utc ≠ some PyTz.kolkata) := by
  exact ⟨by decide, by decide⟩

end APIScheduler
